import Mathlib

/-!
# Player finite-state controller: shallow embedding

A shallow embedding of the player finite-state controller found in
`src/raylib_animated_fsm/src/player.c`, together with theorems checking the
natural-language specification of the system against it.

Modelling conventions:
* C `float` arithmetic is modelled over `ℚ` with the literal constants of the
  source (`0.05f` becomes `1/20`, `0.5f` becomes `1/2`, and so on).
* Rendering calls (`printf`, `DrawCircle`) and texture data are pure side
  effects with no influence on the entity record and are dropped.
* The raylib runtime inputs (`GetScreenWidth`, `GetScreenHeight`,
  `GetFrameTime`) and the random source (`rand`) are threaded through an
  explicit environment record `Env`.
* Engine pieces whose source is not part of the repository snapshot (the
  generic animator, `ChangeState`, `StateTransitions`, the event/update
  dispatchers) are modelled from the specification; each such definition says
  so in its doc comment.
* `shieldExitCount` is a ghost instrumentation field, not present in the C
  struct: it counts invocations of the SHIELD `Exit` hook so that "the Exit
  hook fires exactly once" is a statable property.
-/

namespace FSM

/-- The `State` enumeration of the FSM, as referenced by `player.c`
(the `STATE_COUNT` sentinel is a size marker, not a state, and is omitted). -/
inductive State where
  | STATE_IDLE
  | STATE_WALKING
  | STATE_MOVING_UP
  | STATE_MOVING_DOWN
  | STATE_MOVING_LEFT
  | STATE_MOVING_RIGHT
  | STATE_MOVING_UP_LEFT
  | STATE_MOVING_UP_RIGHT
  | STATE_MOVING_DOWN_LEFT
  | STATE_MOVING_DOWN_RIGHT
  | STATE_ATTACKING
  | STATE_SHIELD
  | STATE_DEAD
  | STATE_RESPAWN
  | STATE_COLLISION
deriving DecidableEq, Repr

/-- The `Event` enumeration dispatched to the FSM, as referenced by `player.c`
(the `EVENT_COUNT` sentinel is a size marker, never dispatched, and is
omitted). -/
inductive Event where
  | EVENT_NONE
  | EVENT_MOVE
  | EVENT_MOVE_UP
  | EVENT_MOVE_DOWN
  | EVENT_MOVE_LEFT
  | EVENT_MOVE_RIGHT
  | EVENT_MOVE_UP_LEFT
  | EVENT_MOVE_UP_RIGHT
  | EVENT_MOVE_DOWN_LEFT
  | EVENT_MOVE_DOWN_RIGHT
  | EVENT_ATTACK
  | EVENT_DEFEND
  | EVENT_SHIELD
  | EVENT_DIE
  | EVENT_RESPAWN
  | EVENT_COLLISION_START
  | EVENT_COLLISION_END
deriving DecidableEq, Repr

open State Event

/-- A 2-component vector (raylib `Vector2`), over `ℚ`. -/
structure Vector2 where
  x : ℚ
  y : ℚ
deriving DecidableEq, Repr

/-- A sprite-sheet rectangle (raylib `Rectangle`), over `ℚ`. -/
structure Rect where
  x : ℚ
  y : ℚ
  w : ℚ
  h : ℚ
deriving DecidableEq, Repr

/-- An animation sequence: frame regions, frame count as passed to the
animator, per-frame duration, elapsed time and current frame cursor. -/
structure Anim where
  frames : List Rect
  frameCount : Nat
  frameDuration : ℚ
  elapsedTime : ℚ
  currentFrame : Nat
deriving DecidableEq, Repr

/-- The per-entity record: the `GameObject` base (position, velocity, health,
circle collider, animation cursor, state fields, speed) plus the
`Player`-specific fields (stamina, mana, lives, spawn point, shield visual
parameters).  `shieldExitCount` is a ghost counter of SHIELD `Exit`
invocations, used only by theorems. -/
structure Entity where
  position : Vector2
  velocity : Vector2
  colliderPos : Vector2
  colliderRadius : ℚ
  health : ℚ
  previousState : State
  currentState : State
  lastDirection : State
  speed : ℚ
  anim : Anim
  stamina : ℚ
  mana : ℚ
  lives : Int
  spawnPoint : Vector2
  shieldColor : Nat × Nat × Nat × Nat
  shieldRadius : ℚ
  shieldActive : Bool
  shieldExitCount : Nat
deriving DecidableEq, Repr

/-- The runtime environment consumed by one operation: screen dimensions
(`GetScreenWidth`/`GetScreenHeight`), the frame time consumed by the animator
(`GetFrameTime`), and the next value of the random source (`rand`). -/
structure Env where
  screenW : ℚ
  screenH : ℚ
  dt : ℚ
  rand : Nat
deriving DecidableEq, Repr

/-- The allowed-destination sets installed per state by `InitPlayerFSM`
(`idleValidTransitions`, `walkingValidTransitions`, the per-direction
`moving*ValidTransitions`, `shieldValidTransitions` /
`sheildingValidTransitions`, `attackValidTransitions`,
`deadValidTransitions`, `respawnValidTransitions`; `STATE_COLLISION` has the
empty default config). -/
def allowedTransitions : State → List State
  | STATE_IDLE =>
      [STATE_WALKING, STATE_ATTACKING, STATE_SHIELD, STATE_DEAD,
       STATE_MOVING_UP, STATE_MOVING_RIGHT, STATE_MOVING_LEFT,
       STATE_MOVING_DOWN, STATE_MOVING_UP_LEFT, STATE_MOVING_UP_RIGHT,
       STATE_MOVING_DOWN_LEFT, STATE_MOVING_DOWN_RIGHT, STATE_SHIELD]
  | STATE_WALKING =>
      [STATE_WALKING, STATE_ATTACKING, STATE_SHIELD, STATE_DEAD,
       STATE_MOVING_UP, STATE_MOVING_RIGHT, STATE_MOVING_LEFT,
       STATE_MOVING_DOWN, STATE_MOVING_UP_LEFT, STATE_MOVING_UP_RIGHT,
       STATE_MOVING_DOWN_LEFT, STATE_MOVING_DOWN_RIGHT]
  | STATE_MOVING_UP => [STATE_IDLE, STATE_ATTACKING, STATE_DEAD]
  | STATE_MOVING_DOWN => [STATE_IDLE, STATE_ATTACKING, STATE_DEAD]
  | STATE_MOVING_LEFT => [STATE_IDLE, STATE_ATTACKING, STATE_DEAD]
  | STATE_MOVING_RIGHT => [STATE_IDLE, STATE_ATTACKING, STATE_DEAD]
  | STATE_MOVING_UP_LEFT => [STATE_IDLE, STATE_ATTACKING, STATE_DEAD]
  | STATE_MOVING_UP_RIGHT => [STATE_IDLE, STATE_ATTACKING, STATE_DEAD]
  | STATE_MOVING_DOWN_LEFT => [STATE_IDLE, STATE_ATTACKING, STATE_DEAD]
  | STATE_MOVING_DOWN_RIGHT => [STATE_IDLE, STATE_ATTACKING, STATE_DEAD]
  | STATE_SHIELD => [STATE_IDLE, STATE_DEAD]
  | STATE_ATTACKING => [STATE_IDLE, STATE_DEAD]
  | STATE_DEAD => [STATE_RESPAWN]
  | STATE_RESPAWN => [STATE_IDLE]
  | STATE_COLLISION => []

/-- Modelled from the spec: `InitGameObjectAnimation` (the generic animator,
not part of `src/`) replaces the `AnimationSequence` wholesale — it installs
the given frame regions, frame count and per-frame duration and resets the
elapsed time and the current frame cursor. -/
def InitGameObjectAnimation (frames : List Rect) (count : Nat) (dur : ℚ)
    (e : Entity) : Entity :=
  { e with anim := { frames := frames, frameCount := count,
                     frameDuration := dur, elapsedTime := 0,
                     currentFrame := 0 } }

/-- Modelled from the spec: `UpdateAnimation` (the generic animator, not part
of `src/`) advances the sequence by the frame time and loops over the frames:
when the accumulated time reaches the per-frame duration the cursor advances
by one modulo the frame count and the accumulated time resets. -/
def UpdateAnimation (dt : ℚ) (a : Anim) : Anim :=
  if a.elapsedTime + dt ≥ a.frameDuration then
    { a with elapsedTime := 0, currentFrame := (a.currentFrame + 1) % a.frameCount }
  else
    { a with elapsedTime := a.elapsedTime + dt }

/-- A row of 64x64 sprite-sheet frames at vertical offset `y`:
frame `i` is the rectangle `{i * 64, y, 64, 64}`. -/
def spriteRow (y : ℚ) (n : Nat) : List Rect :=
  (List.range n).map fun i => ⟨64 * (i : ℚ), y, 64, 64⟩

/-- A row of six 192x192 attack frames at vertical offset `y`:
frame `i` is the rectangle `{i * 192, y, 192, 192}`. -/
def attackRow (y : ℚ) : List Rect :=
  (List.range 6).map fun i => ⟨192 * (i : ℚ), y, 192, 192⟩

/-- The idle frame table chosen by `SelectRandomIdleAnimation` for a given
`randomChoice` (`idle1`..`idle7`; rows 320/384/448 hold 8 frames, rows
1024/1088/1152/1216 hold 13, and the `default` falls back to `idle1`). -/
def idleFramesFor : Nat → List Rect
  | 1 => spriteRow 320 8
  | 2 => spriteRow 384 8
  | 3 => spriteRow 448 8
  | 4 => spriteRow 1024 13
  | 5 => spriteRow 1088 13
  | 6 => spriteRow 1152 13
  | 7 => spriteRow 1216 13
  | _ => spriteRow 320 8

/-- `SelectRandomIdleAnimation`: draw `rand() % 7 + 1` and install the
corresponding idle table; every branch installs with frame count 8 and frame
duration `0.2f`. -/
def SelectRandomIdleAnimation (env : Env) (e : Entity) : Entity :=
  InitGameObjectAnimation (idleFramesFor (env.rand % 7 + 1)) 8 (1/5) e

/-- `PlayerEnterIdle`: re-roll the idle animation when the previous state
differs from the current state and the current state is `STATE_IDLE`. -/
def PlayerEnterIdle (env : Env) (e : Entity) : Entity :=
  if e.previousState ≠ e.currentState ∧ e.currentState = STATE_IDLE then
    SelectRandomIdleAnimation env e
  else e

/-- The sprite-sheet row selected by the `switch` in `PlayerEnterWalking`
(diagonals reuse the up- or down-facing row; the `default` is the up row). -/
def walkRowFor : State → ℚ
  | STATE_MOVING_UP_LEFT => 512
  | STATE_MOVING_UP_RIGHT => 512
  | STATE_MOVING_DOWN_LEFT => 640
  | STATE_MOVING_DOWN_RIGHT => 640
  | STATE_MOVING_UP => 512
  | STATE_MOVING_DOWN => 640
  | STATE_MOVING_LEFT => 576
  | STATE_MOVING_RIGHT => 704
  | _ => 512

/-- `PlayerEnterWalking`: install the 9-frame directional walk sequence keyed
by the current state, with frame duration `0.1f`. -/
def PlayerEnterWalking (e : Entity) : Entity :=
  InitGameObjectAnimation (spriteRow (walkRowFor e.currentState) 9) 9 (1/10) e

/-- The attack row selected by the `switch` in `PlayerEnterAttacking`, keyed
by the last cardinal movement direction (the `default` is the down row). -/
def attackRowFor : State → ℚ
  | STATE_MOVING_UP => 2994
  | STATE_MOVING_DOWN => 3328
  | STATE_MOVING_LEFT => 3136
  | STATE_MOVING_RIGHT => 3520
  | _ => 3328

/-- `PlayerEnterAttacking`: install the 6-frame directional attack sequence
keyed by `lastDirection`, with frame duration `0.1f`. -/
def PlayerEnterAttacking (e : Entity) : Entity :=
  InitGameObjectAnimation (attackRow (attackRowFor e.lastDirection)) 6 (1/10) e

/-- `PlayerEnterShield`: install the shield visual parameters (color
`{0,255,128,128}`, radius 90, active flag set) and the fixed 8-frame shield
sequence with frame duration `0.1f`. -/
def PlayerEnterShield (e : Entity) : Entity :=
  InitGameObjectAnimation (spriteRow 384 8) 8 (1/10)
    { e with shieldColor := (0, 255, 128, 128), shieldRadius := 90,
             shieldActive := true }

/-- `PlayerEnterDie`: install the fixed 6-frame death sequence (row 1280)
with frame duration `0.2f`. -/
def PlayerEnterDie (e : Entity) : Entity :=
  InitGameObjectAnimation (spriteRow 1280 6) 6 (1/5) e

/-- `PlayerEnterRespawn`: reset position to the screen center, restore
health, stamina and mana to 100, and install the fixed 8-frame respawn
sequence (row 384) with frame duration `0.1f`. -/
def PlayerEnterRespawn (env : Env) (e : Entity) : Entity :=
  InitGameObjectAnimation (spriteRow 384 8) 8 (1/10)
    { e with position := ⟨env.screenW / 2, env.screenH / 2⟩,
             health := 100, stamina := 100, mana := 100 }

/-- `PlayerExitShield`: clear the shield-active flag.  The ghost counter
`shieldExitCount` is incremented so theorems can count invocations. -/
def PlayerExitShield (e : Entity) : Entity :=
  { e with shieldActive := false, shieldExitCount := e.shieldExitCount + 1 }

/-- The `Entry` hook installed for each state by `InitPlayerFSM`
(`STATE_COLLISION` has the empty config, hence no hook). -/
def entryHook (env : Env) : State → Entity → Entity
  | STATE_IDLE, e => PlayerEnterIdle env e
  | STATE_WALKING, e => PlayerEnterWalking e
  | STATE_MOVING_UP, e => PlayerEnterWalking e
  | STATE_MOVING_DOWN, e => PlayerEnterWalking e
  | STATE_MOVING_LEFT, e => PlayerEnterWalking e
  | STATE_MOVING_RIGHT, e => PlayerEnterWalking e
  | STATE_MOVING_UP_LEFT, e => PlayerEnterWalking e
  | STATE_MOVING_UP_RIGHT, e => PlayerEnterWalking e
  | STATE_MOVING_DOWN_LEFT, e => PlayerEnterWalking e
  | STATE_MOVING_DOWN_RIGHT, e => PlayerEnterWalking e
  | STATE_ATTACKING, e => PlayerEnterAttacking e
  | STATE_SHIELD, e => PlayerEnterShield e
  | STATE_DEAD, e => PlayerEnterDie e
  | STATE_RESPAWN, e => PlayerEnterRespawn env e
  | STATE_COLLISION, e => e

/-- The `Exit` hook installed for each state by `InitPlayerFSM`.  Only the
SHIELD exit has an observable effect; the other exit hooks only log. -/
def exitHook : State → Entity → Entity
  | STATE_SHIELD, e => PlayerExitShield e
  | _, e => e

/-- Modelled from the spec: `ChangeState` (the transition operation, not part
of `src/`).  An externally-triggered transition is rejected (no-op) when the
destination is outside the current state's allowed-destination set; an
internally-forced transition (`forced = true`) bypasses the check.  An
accepted transition invokes the exit hook of the current state, sets
`previousState` to the current state and `currentState` to the destination,
then invokes the entry hook of the destination. -/
def ChangeState (env : Env) (forced : Bool) (dest : State) (e : Entity) : Entity :=
  if forced = true ∨ dest ∈ allowedTransitions e.currentState then
    entryHook env dest
      { exitHook e.currentState e with
          previousState := e.currentState, currentState := dest }
  else e

/-- `PlayerIdleHandleEvent`: the IDLE event reaction table. -/
def PlayerIdleHandleEvent (env : Env) (e : Entity) : Event → Entity
  | EVENT_MOVE => ChangeState env false STATE_WALKING e
  | EVENT_ATTACK => ChangeState env false STATE_ATTACKING e
  | EVENT_DEFEND => ChangeState env false STATE_SHIELD e
  | EVENT_DIE => ChangeState env false STATE_DEAD e
  | EVENT_NONE => { e with previousState := e.currentState }
  | EVENT_RESPAWN => e
  | EVENT_COLLISION_START => e
  | EVENT_COLLISION_END => e
  | EVENT_MOVE_UP => ChangeState env false STATE_MOVING_UP e
  | EVENT_MOVE_DOWN => ChangeState env false STATE_MOVING_DOWN e
  | EVENT_MOVE_LEFT => ChangeState env false STATE_MOVING_LEFT e
  | EVENT_MOVE_RIGHT => ChangeState env false STATE_MOVING_RIGHT e
  | EVENT_MOVE_UP_RIGHT => ChangeState env false STATE_MOVING_UP_RIGHT e
  | EVENT_MOVE_UP_LEFT => ChangeState env false STATE_MOVING_UP_LEFT e
  | EVENT_MOVE_DOWN_RIGHT => ChangeState env false STATE_MOVING_DOWN_RIGHT e
  | EVENT_MOVE_DOWN_LEFT => ChangeState env false STATE_MOVING_DOWN_LEFT e
  | EVENT_SHIELD => ChangeState env false STATE_SHIELD e

/-- `PlayerWalkingHandleEvent`: the WALKING / MOVING_* event reaction table. -/
def PlayerWalkingHandleEvent (env : Env) (e : Entity) : Event → Entity
  | EVENT_NONE => ChangeState env false STATE_IDLE e
  | EVENT_ATTACK => ChangeState env false STATE_ATTACKING e
  | EVENT_DIE => ChangeState env false STATE_DEAD e
  | EVENT_MOVE => e
  | EVENT_DEFEND => e
  | EVENT_RESPAWN => e
  | EVENT_COLLISION_START => e
  | EVENT_COLLISION_END => e
  | EVENT_MOVE_UP => ChangeState env false STATE_MOVING_UP e
  | EVENT_MOVE_DOWN => ChangeState env false STATE_MOVING_DOWN e
  | EVENT_MOVE_LEFT => ChangeState env false STATE_MOVING_LEFT e
  | EVENT_MOVE_RIGHT => ChangeState env false STATE_MOVING_RIGHT e
  | EVENT_MOVE_UP_RIGHT => ChangeState env false STATE_MOVING_UP_RIGHT e
  | EVENT_MOVE_UP_LEFT => ChangeState env false STATE_MOVING_UP_LEFT e
  | EVENT_MOVE_DOWN_RIGHT => ChangeState env false STATE_MOVING_DOWN_RIGHT e
  | EVENT_MOVE_DOWN_LEFT => ChangeState env false STATE_MOVING_DOWN_LEFT e
  | EVENT_SHIELD => e

/-- `PlayerAttackingHandleEvent`: the ATTACKING event reaction table
(attack is uninterruptible by new input). -/
def PlayerAttackingHandleEvent (env : Env) (e : Entity) : Event → Entity
  | EVENT_NONE => ChangeState env false STATE_IDLE e
  | EVENT_DIE => ChangeState env false STATE_DEAD e
  | _ => e

/-- `PlayerShieldHandleEvent`: the SHIELD event reaction table (any
directional move cancels shielding; `default` ignores). -/
def PlayerShieldHandleEvent (env : Env) (e : Entity) : Event → Entity
  | EVENT_MOVE_UP => ChangeState env false STATE_IDLE e
  | EVENT_MOVE_DOWN => ChangeState env false STATE_IDLE e
  | EVENT_MOVE_LEFT => ChangeState env false STATE_IDLE e
  | EVENT_MOVE_RIGHT => ChangeState env false STATE_IDLE e
  | EVENT_MOVE_UP_LEFT => ChangeState env false STATE_IDLE e
  | EVENT_MOVE_UP_RIGHT => ChangeState env false STATE_IDLE e
  | EVENT_MOVE_DOWN_LEFT => ChangeState env false STATE_IDLE e
  | EVENT_MOVE_DOWN_RIGHT => ChangeState env false STATE_IDLE e
  | EVENT_DIE => ChangeState env false STATE_DEAD e
  | _ => e

/-- `PlayerDieHandleEvent`: the event is explicitly ignored. -/
def PlayerDieHandleEvent (e : Entity) (_ev : Event) : Entity := e

/-- `PlayerRespawnHandleEvent`: the event is explicitly ignored. -/
def PlayerRespawnHandleEvent (e : Entity) (_ev : Event) : Entity := e

/-- `PlayerMove`: integrate the direction vector into the position and sync
the circle collider to the new position. -/
def PlayerMove (d : Vector2) (e : Entity) : Entity :=
  { e with position := ⟨e.position.x + d.x, e.position.y + d.y⟩,
           colliderPos := ⟨e.position.x + d.x, e.position.y + d.y⟩ }

/-- `PlayerUpdateIdle`: regenerate stamina and mana by `0.5f` per tick,
clamped to the maximum of 100, then advance the animation. -/
def PlayerUpdateIdle (env : Env) (e : Entity) : Entity :=
  { e with stamina := min (e.stamina + 1/2) 100,
           mana := min (e.mana + 1/2) 100,
           anim := UpdateAnimation env.dt e.anim }

/-- The movement `switch` of `PlayerUpdateWalking`: given the current state,
the movement speed and the current `lastDirection`, yield the direction
vector and the new `lastDirection` (cardinal moves update it, diagonals and
the `default` branch leave it unchanged). -/
def walkMoveDirection (s : State) (speed : ℚ) (lastDir : State) :
    Vector2 × State :=
  match s with
  | STATE_MOVING_UP_RIGHT => (⟨speed / 2, -(speed / 2)⟩, lastDir)
  | STATE_MOVING_UP_LEFT => (⟨-(speed / 2), -(speed / 2)⟩, lastDir)
  | STATE_MOVING_DOWN_RIGHT => (⟨speed / 2, speed / 2⟩, lastDir)
  | STATE_MOVING_DOWN_LEFT => (⟨-(speed / 2), speed / 2⟩, lastDir)
  | STATE_MOVING_UP => (⟨0, -speed⟩, STATE_MOVING_UP)
  | STATE_MOVING_DOWN => (⟨0, speed⟩, STATE_MOVING_DOWN)
  | STATE_MOVING_LEFT => (⟨-speed, 0⟩, STATE_MOVING_LEFT)
  | STATE_MOVING_RIGHT => (⟨speed, 0⟩, STATE_MOVING_RIGHT)
  | _ => (⟨0, -speed⟩, lastDir)

/-- The two sequential boundary `if`s of `PlayerUpdateWalking` on one axis:
raise below `lo` to `lo`, then lower above `hi` to `hi`. -/
def boundaryClamp (lo hi v : ℚ) : ℚ :=
  if (if v < lo then lo else v) > hi then hi else (if v < lo then lo else v)

/-- `PlayerUpdateWalking` (shared by WALKING and all MOVING_* states): deduct
the stamina cost `0.05f`; on depletion clamp stamina to 0 and force IDLE,
skipping the rest of the tick; otherwise apply the direction vector, clamp
the position to the screen minus the 32-pixel player radius, sync the
collider, advance the animation, force DEAD when health is depleted, and
force IDLE when the animation has reached its final frame. -/
def PlayerUpdateWalking (env : Env) (e : Entity) : Entity :=
  let e1 := { e with stamina := e.stamina - 1/20 }
  if e1.stamina ≤ 0 then
    ChangeState env true STATE_IDLE { e1 with stamina := 0 }
  else
    let ds := walkMoveDirection e1.currentState e1.speed e1.lastDirection
    let e2 := PlayerMove ds.1 { e1 with lastDirection := ds.2 }
    let px := boundaryClamp 32 (env.screenW - 32) e2.position.x
    let py := boundaryClamp 32 (env.screenH - 32) e2.position.y
    let e3 := { e2 with position := ⟨px, py⟩, colliderPos := ⟨px, py⟩,
                        anim := UpdateAnimation env.dt e2.anim }
    let e4 := if e3.health ≤ 0 then ChangeState env true STATE_DEAD e3 else e3
    if e4.anim.currentFrame ≥ e4.anim.frameCount - 1 then
      ChangeState env true STATE_IDLE e4
    else e4

/-- `PlayerUpdateAttacking`: deduct the mana cost `1.0f`; on depletion clamp
mana to 0 and force IDLE without advancing the animation; otherwise advance
the animation. -/
def PlayerUpdateAttacking (env : Env) (e : Entity) : Entity :=
  let e1 := { e with mana := e.mana - 1 }
  if e1.mana ≤ 0 then
    ChangeState env true STATE_IDLE { e1 with mana := 0 }
  else
    { e1 with anim := UpdateAnimation env.dt e1.anim }

/-- `PlayerUpdateShield`: advance the animation, deduct the stamina cost
`0.05f`, and force IDLE on depletion.  Unlike the WALKING and ATTACKING
updates, the source does not clamp the pool to 0 here.  The `DrawCircle`
overlay is a rendering side effect and is not modelled. -/
def PlayerUpdateShield (env : Env) (e : Entity) : Entity :=
  let e1 := { e with anim := UpdateAnimation env.dt e.anim,
                     stamina := e.stamina - 1/20 }
  if e1.stamina ≤ 0 then ChangeState env true STATE_IDLE e1 else e1

/-- `PlayerUpdateDie`: advance the death animation; on its final frame
decrement lives and either force RESPAWN (lives remain) or reset position to
the spawn point, reset lives to 4, and force IDLE. -/
def PlayerUpdateDie (env : Env) (e : Entity) : Entity :=
  let e1 := { e with anim := UpdateAnimation env.dt e.anim }
  if e1.anim.currentFrame ≥ e1.anim.frameCount - 1 then
    let e2 := { e1 with lives := e1.lives - 1 }
    if e2.lives > 0 then
      ChangeState env true STATE_RESPAWN e2
    else
      ChangeState env true STATE_IDLE
        { e2 with position := e2.spawnPoint, lives := 4 }
  else e1

/-- `PlayerUpdateRespawn`: advance the respawn animation; on its final frame
force IDLE. -/
def PlayerUpdateRespawn (env : Env) (e : Entity) : Entity :=
  let e1 := { e with anim := UpdateAnimation env.dt e.anim }
  if e1.anim.currentFrame ≥ e1.anim.frameCount - 1 then
    ChangeState env true STATE_IDLE e1
  else e1

/-- Modelled from the spec: `Dispatch` (the event dispatcher, not part of
`src/`) routes one event to the current state's installed `HandleEvent`
handler; a state with no handler (`STATE_COLLISION`) ignores the event. -/
def Dispatch (env : Env) (e : Entity) (ev : Event) : Entity :=
  match e.currentState with
  | STATE_IDLE => PlayerIdleHandleEvent env e ev
  | STATE_WALKING => PlayerWalkingHandleEvent env e ev
  | STATE_MOVING_UP => PlayerWalkingHandleEvent env e ev
  | STATE_MOVING_DOWN => PlayerWalkingHandleEvent env e ev
  | STATE_MOVING_LEFT => PlayerWalkingHandleEvent env e ev
  | STATE_MOVING_RIGHT => PlayerWalkingHandleEvent env e ev
  | STATE_MOVING_UP_LEFT => PlayerWalkingHandleEvent env e ev
  | STATE_MOVING_UP_RIGHT => PlayerWalkingHandleEvent env e ev
  | STATE_MOVING_DOWN_LEFT => PlayerWalkingHandleEvent env e ev
  | STATE_MOVING_DOWN_RIGHT => PlayerWalkingHandleEvent env e ev
  | STATE_ATTACKING => PlayerAttackingHandleEvent env e ev
  | STATE_SHIELD => PlayerShieldHandleEvent env e ev
  | STATE_DEAD => PlayerDieHandleEvent e ev
  | STATE_RESPAWN => PlayerRespawnHandleEvent e ev
  | STATE_COLLISION => e

/-- Modelled from the spec: `Tick` (the per-tick update dispatcher, not part
of `src/`) runs the current state's installed `Update` behavior once; a state
with no update (`STATE_COLLISION`) is a no-op. -/
def Tick (env : Env) (e : Entity) : Entity :=
  match e.currentState with
  | STATE_IDLE => PlayerUpdateIdle env e
  | STATE_WALKING => PlayerUpdateWalking env e
  | STATE_MOVING_UP => PlayerUpdateWalking env e
  | STATE_MOVING_DOWN => PlayerUpdateWalking env e
  | STATE_MOVING_LEFT => PlayerUpdateWalking env e
  | STATE_MOVING_RIGHT => PlayerUpdateWalking env e
  | STATE_MOVING_UP_LEFT => PlayerUpdateWalking env e
  | STATE_MOVING_UP_RIGHT => PlayerUpdateWalking env e
  | STATE_MOVING_DOWN_LEFT => PlayerUpdateWalking env e
  | STATE_MOVING_DOWN_RIGHT => PlayerUpdateWalking env e
  | STATE_ATTACKING => PlayerUpdateAttacking env e
  | STATE_SHIELD => PlayerUpdateShield env e
  | STATE_DEAD => PlayerUpdateDie env e
  | STATE_RESPAWN => PlayerUpdateRespawn env e
  | STATE_COLLISION => e

/-- The states whose `Update` behavior is `PlayerUpdateWalking`: WALKING and
the eight directional MOVING_* states. -/
def walkingStates : List State :=
  [STATE_WALKING, STATE_MOVING_UP, STATE_MOVING_DOWN, STATE_MOVING_LEFT,
   STATE_MOVING_RIGHT, STATE_MOVING_UP_LEFT, STATE_MOVING_UP_RIGHT,
   STATE_MOVING_DOWN_LEFT, STATE_MOVING_DOWN_RIGHT]


/-! ## Helper lemmas: field preservation through hooks and transitions -/

@[simp] lemma exitHook_currentState (s : State) (e : Entity) :
    (exitHook s e).currentState = e.currentState := by cases s <;> rfl

@[simp] lemma exitHook_previousState (s : State) (e : Entity) :
    (exitHook s e).previousState = e.previousState := by cases s <;> rfl

@[simp] lemma exitHook_position (s : State) (e : Entity) :
    (exitHook s e).position = e.position := by cases s <;> rfl

@[simp] lemma exitHook_colliderPos (s : State) (e : Entity) :
    (exitHook s e).colliderPos = e.colliderPos := by cases s <;> rfl

@[simp] lemma exitHook_stamina (s : State) (e : Entity) :
    (exitHook s e).stamina = e.stamina := by cases s <;> rfl

@[simp] lemma exitHook_mana (s : State) (e : Entity) :
    (exitHook s e).mana = e.mana := by cases s <;> rfl

@[simp] lemma exitHook_lives (s : State) (e : Entity) :
    (exitHook s e).lives = e.lives := by cases s <;> rfl

@[simp] lemma exitHook_lastDirection (s : State) (e : Entity) :
    (exitHook s e).lastDirection = e.lastDirection := by cases s <;> rfl

@[simp] lemma exitHook_health (s : State) (e : Entity) :
    (exitHook s e).health = e.health := by cases s <;> rfl

@[simp] lemma exitHook_spawnPoint (s : State) (e : Entity) :
    (exitHook s e).spawnPoint = e.spawnPoint := by cases s <;> rfl

@[simp] lemma exitHook_speed (s : State) (e : Entity) :
    (exitHook s e).speed = e.speed := by cases s <;> rfl

@[simp] lemma exitHook_anim (s : State) (e : Entity) :
    (exitHook s e).anim = e.anim := by cases s <;> rfl

@[simp] lemma playerEnterIdle_currentState (env : Env) (e : Entity) :
    (PlayerEnterIdle env e).currentState = e.currentState := by
  unfold PlayerEnterIdle SelectRandomIdleAnimation InitGameObjectAnimation
  split <;> rfl

@[simp] lemma playerEnterIdle_previousState (env : Env) (e : Entity) :
    (PlayerEnterIdle env e).previousState = e.previousState := by
  unfold PlayerEnterIdle SelectRandomIdleAnimation InitGameObjectAnimation
  split <;> rfl

@[simp] lemma playerEnterIdle_position (env : Env) (e : Entity) :
    (PlayerEnterIdle env e).position = e.position := by
  unfold PlayerEnterIdle SelectRandomIdleAnimation InitGameObjectAnimation
  split <;> rfl

@[simp] lemma playerEnterIdle_colliderPos (env : Env) (e : Entity) :
    (PlayerEnterIdle env e).colliderPos = e.colliderPos := by
  unfold PlayerEnterIdle SelectRandomIdleAnimation InitGameObjectAnimation
  split <;> rfl

@[simp] lemma playerEnterIdle_stamina (env : Env) (e : Entity) :
    (PlayerEnterIdle env e).stamina = e.stamina := by
  unfold PlayerEnterIdle SelectRandomIdleAnimation InitGameObjectAnimation
  split <;> rfl

@[simp] lemma playerEnterIdle_mana (env : Env) (e : Entity) :
    (PlayerEnterIdle env e).mana = e.mana := by
  unfold PlayerEnterIdle SelectRandomIdleAnimation InitGameObjectAnimation
  split <;> rfl

@[simp] lemma playerEnterIdle_lives (env : Env) (e : Entity) :
    (PlayerEnterIdle env e).lives = e.lives := by
  unfold PlayerEnterIdle SelectRandomIdleAnimation InitGameObjectAnimation
  split <;> rfl

@[simp] lemma playerEnterIdle_lastDirection (env : Env) (e : Entity) :
    (PlayerEnterIdle env e).lastDirection = e.lastDirection := by
  unfold PlayerEnterIdle SelectRandomIdleAnimation InitGameObjectAnimation
  split <;> rfl

@[simp] lemma playerEnterIdle_health (env : Env) (e : Entity) :
    (PlayerEnterIdle env e).health = e.health := by
  unfold PlayerEnterIdle SelectRandomIdleAnimation InitGameObjectAnimation
  split <;> rfl

@[simp] lemma playerEnterIdle_spawnPoint (env : Env) (e : Entity) :
    (PlayerEnterIdle env e).spawnPoint = e.spawnPoint := by
  unfold PlayerEnterIdle SelectRandomIdleAnimation InitGameObjectAnimation
  split <;> rfl

@[simp] lemma playerEnterIdle_shieldActive (env : Env) (e : Entity) :
    (PlayerEnterIdle env e).shieldActive = e.shieldActive := by
  unfold PlayerEnterIdle SelectRandomIdleAnimation InitGameObjectAnimation
  split <;> rfl

@[simp] lemma playerEnterIdle_shieldExitCount (env : Env) (e : Entity) :
    (PlayerEnterIdle env e).shieldExitCount = e.shieldExitCount := by
  unfold PlayerEnterIdle SelectRandomIdleAnimation InitGameObjectAnimation
  split <;> rfl

@[simp] lemma playerEnterIdle_speed (env : Env) (e : Entity) :
    (PlayerEnterIdle env e).speed = e.speed := by
  unfold PlayerEnterIdle SelectRandomIdleAnimation InitGameObjectAnimation
  split <;> rfl

/-- The idle animation freshly rolled on a genuine (state-changing) entry. -/
lemma playerEnterIdle_anim_of_ne (env : Env) (e : Entity)
    (h1 : e.previousState ≠ e.currentState) (h2 : e.currentState = STATE_IDLE) :
    (PlayerEnterIdle env e).anim =
      ⟨idleFramesFor (env.rand % 7 + 1), 8, 1/5, 0, 0⟩ := by
  unfold PlayerEnterIdle SelectRandomIdleAnimation InitGameObjectAnimation
  rw [if_pos ⟨h1, h2⟩]

@[simp] lemma entryHook_currentState (env : Env) (s : State) (e : Entity) :
    (entryHook env s e).currentState = e.currentState := by
  cases s <;>
    simp [entryHook, PlayerEnterWalking, PlayerEnterAttacking,
      PlayerEnterShield, PlayerEnterDie, PlayerEnterRespawn,
      InitGameObjectAnimation]

@[simp] lemma entryHook_previousState (env : Env) (s : State) (e : Entity) :
    (entryHook env s e).previousState = e.previousState := by
  cases s <;>
    simp [entryHook, PlayerEnterWalking, PlayerEnterAttacking,
      PlayerEnterShield, PlayerEnterDie, PlayerEnterRespawn,
      InitGameObjectAnimation]

@[simp] lemma entryHook_lastDirection (env : Env) (s : State) (e : Entity) :
    (entryHook env s e).lastDirection = e.lastDirection := by
  cases s <;>
    simp [entryHook, PlayerEnterWalking, PlayerEnterAttacking,
      PlayerEnterShield, PlayerEnterDie, PlayerEnterRespawn,
      InitGameObjectAnimation]

@[simp] lemma entryHook_lives (env : Env) (s : State) (e : Entity) :
    (entryHook env s e).lives = e.lives := by
  cases s <;>
    simp [entryHook, PlayerEnterWalking, PlayerEnterAttacking,
      PlayerEnterShield, PlayerEnterDie, PlayerEnterRespawn,
      InitGameObjectAnimation]

@[simp] lemma entryHook_spawnPoint (env : Env) (s : State) (e : Entity) :
    (entryHook env s e).spawnPoint = e.spawnPoint := by
  cases s <;>
    simp [entryHook, PlayerEnterWalking, PlayerEnterAttacking,
      PlayerEnterShield, PlayerEnterDie, PlayerEnterRespawn,
      InitGameObjectAnimation]

@[simp] lemma entryHook_colliderPos (env : Env) (s : State) (e : Entity) :
    (entryHook env s e).colliderPos = e.colliderPos := by
  cases s <;>
    simp [entryHook, PlayerEnterWalking, PlayerEnterAttacking,
      PlayerEnterShield, PlayerEnterDie, PlayerEnterRespawn,
      InitGameObjectAnimation]

@[simp] lemma entryHook_speed (env : Env) (s : State) (e : Entity) :
    (entryHook env s e).speed = e.speed := by
  cases s <;>
    simp [entryHook, PlayerEnterWalking, PlayerEnterAttacking,
      PlayerEnterShield, PlayerEnterDie, PlayerEnterRespawn,
      InitGameObjectAnimation]

@[simp] lemma entryHook_shieldExitCount (env : Env) (s : State) (e : Entity) :
    (entryHook env s e).shieldExitCount = e.shieldExitCount := by
  cases s <;>
    simp [entryHook, PlayerEnterWalking, PlayerEnterAttacking,
      PlayerEnterShield, PlayerEnterDie, PlayerEnterRespawn,
      InitGameObjectAnimation]

/-- A forced transition always lands in the destination state. -/
@[simp] lemma changeState_forced_currentState (env : Env) (dest : State)
    (e : Entity) : (ChangeState env true dest e).currentState = dest := by
  unfold ChangeState
  rw [if_pos (Or.inl rfl)]
  simp

/-- A forced transition records the old state as `previousState`. -/
@[simp] lemma changeState_forced_previousState (env : Env) (dest : State)
    (e : Entity) :
    (ChangeState env true dest e).previousState = e.currentState := by
  unfold ChangeState
  rw [if_pos (Or.inl rfl)]
  simp

@[simp] lemma changeState_lastDirection (env : Env) (f : Bool) (dest : State)
    (e : Entity) :
    (ChangeState env f dest e).lastDirection = e.lastDirection := by
  unfold ChangeState; split <;> simp

@[simp] lemma changeState_lives (env : Env) (f : Bool) (dest : State)
    (e : Entity) : (ChangeState env f dest e).lives = e.lives := by
  unfold ChangeState; split <;> simp

@[simp] lemma changeState_spawnPoint (env : Env) (f : Bool) (dest : State)
    (e : Entity) : (ChangeState env f dest e).spawnPoint = e.spawnPoint := by
  unfold ChangeState; split <;> simp

@[simp] lemma changeState_colliderPos (env : Env) (f : Bool) (dest : State)
    (e : Entity) : (ChangeState env f dest e).colliderPos = e.colliderPos := by
  unfold ChangeState; split <;> simp

@[simp] lemma changeState_speed (env : Env) (f : Bool) (dest : State)
    (e : Entity) : (ChangeState env f dest e).speed = e.speed := by
  unfold ChangeState; split <;> simp

/-- Every destination other than RESPAWN leaves the position alone. -/
lemma changeState_position (env : Env) (f : Bool) (dest : State) (e : Entity)
    (h : dest ≠ STATE_RESPAWN) :
    (ChangeState env f dest e).position = e.position := by
  unfold ChangeState
  split
  · cases dest <;>
      simp [entryHook, PlayerEnterWalking, PlayerEnterAttacking,
        PlayerEnterShield, PlayerEnterDie, InitGameObjectAnimation] at h ⊢
  · rfl

/-- Every destination other than RESPAWN leaves the stamina alone. -/
lemma changeState_stamina (env : Env) (f : Bool) (dest : State) (e : Entity)
    (h : dest ≠ STATE_RESPAWN) :
    (ChangeState env f dest e).stamina = e.stamina := by
  unfold ChangeState
  split
  · cases dest <;>
      simp [entryHook, PlayerEnterWalking, PlayerEnterAttacking,
        PlayerEnterShield, PlayerEnterDie, InitGameObjectAnimation] at h ⊢
  · rfl

/-- Every destination other than RESPAWN leaves the mana alone. -/
lemma changeState_mana (env : Env) (f : Bool) (dest : State) (e : Entity)
    (h : dest ≠ STATE_RESPAWN) :
    (ChangeState env f dest e).mana = e.mana := by
  unfold ChangeState
  split
  · cases dest <;>
      simp [entryHook, PlayerEnterWalking, PlayerEnterAttacking,
        PlayerEnterShield, PlayerEnterDie, InitGameObjectAnimation] at h ⊢
  · rfl

/-- Every destination other than RESPAWN leaves the health alone. -/
lemma changeState_health (env : Env) (f : Bool) (dest : State) (e : Entity)
    (h : dest ≠ STATE_RESPAWN) :
    (ChangeState env f dest e).health = e.health := by
  unfold ChangeState
  split
  · cases dest <;>
      simp [entryHook, PlayerEnterWalking, PlayerEnterAttacking,
        PlayerEnterShield, PlayerEnterDie, InitGameObjectAnimation] at h ⊢
  · rfl

/-- A forced transition to DEAD installs the fresh death sequence. -/
lemma changeState_dead_anim (env : Env) (e : Entity) :
    (ChangeState env true STATE_DEAD e).anim = ⟨spriteRow 1280 6, 6, 1/5, 0, 0⟩ := by
  unfold ChangeState
  rw [if_pos (Or.inl rfl)]
  simp [entryHook, PlayerEnterDie, InitGameObjectAnimation]

/-- A forced transition to IDLE from a different state re-rolls the idle
animation, resetting the cursor. -/
lemma changeState_idle_anim (env : Env) (e : Entity)
    (h : e.currentState ≠ STATE_IDLE) :
    (ChangeState env true STATE_IDLE e).anim =
      ⟨idleFramesFor (env.rand % 7 + 1), 8, 1/5, 0, 0⟩ := by
  unfold ChangeState
  rw [if_pos (Or.inl rfl)]
  show (PlayerEnterIdle env _).anim = _
  rw [playerEnterIdle_anim_of_ne]
  · simpa using h
  · rfl

/-- States updated by `PlayerUpdateWalking` run exactly that update. -/
lemma tick_eq_walking (env : Env) (e : Entity)
    (h : e.currentState ∈ walkingStates) :
    Tick env e = PlayerUpdateWalking env e := by
  simp only [walkingStates, List.mem_cons, List.not_mem_nil, or_false] at h
  rcases h with h | h | h | h | h | h | h | h | h <;> simp [Tick, h]


/-! ## Claim theorems -/

/-- C1: For every event dispatched while the entity is in IDLE: MOVE changes
state to WALKING; each directional MOVE_* changes state to the corresponding
MOVING_* state; ATTACK to ATTACKING; DEFEND or SHIELD to SHIELD; DIE to DEAD;
NONE sets previousState to currentState and performs no state change;
RESPAWN, COLLISION_START and COLLISION_END leave the entity entirely
unchanged. -/
theorem idle_dispatch_table (env : Env) (e : Entity)
    (h : e.currentState = STATE_IDLE) :
    (Dispatch env e EVENT_MOVE).currentState = STATE_WALKING ∧
    (Dispatch env e EVENT_MOVE_UP).currentState = STATE_MOVING_UP ∧
    (Dispatch env e EVENT_MOVE_DOWN).currentState = STATE_MOVING_DOWN ∧
    (Dispatch env e EVENT_MOVE_LEFT).currentState = STATE_MOVING_LEFT ∧
    (Dispatch env e EVENT_MOVE_RIGHT).currentState = STATE_MOVING_RIGHT ∧
    (Dispatch env e EVENT_MOVE_UP_LEFT).currentState = STATE_MOVING_UP_LEFT ∧
    (Dispatch env e EVENT_MOVE_UP_RIGHT).currentState = STATE_MOVING_UP_RIGHT ∧
    (Dispatch env e EVENT_MOVE_DOWN_LEFT).currentState = STATE_MOVING_DOWN_LEFT ∧
    (Dispatch env e EVENT_MOVE_DOWN_RIGHT).currentState = STATE_MOVING_DOWN_RIGHT ∧
    (Dispatch env e EVENT_ATTACK).currentState = STATE_ATTACKING ∧
    (Dispatch env e EVENT_DEFEND).currentState = STATE_SHIELD ∧
    (Dispatch env e EVENT_SHIELD).currentState = STATE_SHIELD ∧
    (Dispatch env e EVENT_DIE).currentState = STATE_DEAD ∧
    Dispatch env e EVENT_NONE = { e with previousState := e.currentState } ∧
    (Dispatch env e EVENT_NONE).currentState = e.currentState ∧
    Dispatch env e EVENT_RESPAWN = e ∧
    Dispatch env e EVENT_COLLISION_START = e ∧
    Dispatch env e EVENT_COLLISION_END = e := by
  simp [Dispatch, h, PlayerIdleHandleEvent, ChangeState, allowedTransitions]

/-- C7: For every event dispatched while the entity is in SHIELD: each of the
eight directional MOVE_* events changes state to IDLE, DIE changes state to
DEAD, and every other event leaves the entity unchanged; on such a transition
the SHIELD Exit hook fires exactly once (the ghost counter increases by
exactly one), clearing the shield-active flag, and a subsequent IDLE tick
neither clears the flag again nor fires the hook again. -/
theorem shield_dispatch_exit_once (env env2 : Env) (e : Entity)
    (h : e.currentState = STATE_SHIELD) :
    (Dispatch env e EVENT_MOVE_UP).currentState = STATE_IDLE ∧
    (Dispatch env e EVENT_MOVE_DOWN).currentState = STATE_IDLE ∧
    (Dispatch env e EVENT_MOVE_LEFT).currentState = STATE_IDLE ∧
    (Dispatch env e EVENT_MOVE_RIGHT).currentState = STATE_IDLE ∧
    (Dispatch env e EVENT_MOVE_UP_LEFT).currentState = STATE_IDLE ∧
    (Dispatch env e EVENT_MOVE_UP_RIGHT).currentState = STATE_IDLE ∧
    (Dispatch env e EVENT_MOVE_DOWN_LEFT).currentState = STATE_IDLE ∧
    (Dispatch env e EVENT_MOVE_DOWN_RIGHT).currentState = STATE_IDLE ∧
    (Dispatch env e EVENT_DIE).currentState = STATE_DEAD ∧
    (Dispatch env e EVENT_MOVE_LEFT).shieldActive = false ∧
    (Dispatch env e EVENT_MOVE_LEFT).shieldExitCount = e.shieldExitCount + 1 ∧
    (Dispatch env e EVENT_DIE).shieldActive = false ∧
    (Dispatch env e EVENT_DIE).shieldExitCount = e.shieldExitCount + 1 ∧
    Dispatch env e EVENT_NONE = e ∧
    Dispatch env e EVENT_MOVE = e ∧
    Dispatch env e EVENT_ATTACK = e ∧
    Dispatch env e EVENT_DEFEND = e ∧
    Dispatch env e EVENT_SHIELD = e ∧
    Dispatch env e EVENT_RESPAWN = e ∧
    Dispatch env e EVENT_COLLISION_START = e ∧
    Dispatch env e EVENT_COLLISION_END = e ∧
    (∀ x : Entity, x.currentState = STATE_IDLE →
      (Tick env2 x).shieldActive = x.shieldActive ∧
      (Tick env2 x).shieldExitCount = x.shieldExitCount) := by
  refine ⟨?_, ?_, ?_, ?_, ?_, ?_, ?_, ?_, ?_, ?_, ?_, ?_, ?_, ?_, ?_, ?_,
    ?_, ?_, ?_, ?_, ?_, ?_⟩ <;>
    try simp [Dispatch, h, PlayerShieldHandleEvent, ChangeState,
      allowedTransitions, exitHook, PlayerExitShield, entryHook,
      PlayerEnterDie, InitGameObjectAnimation]
  intro x hx
  simp [Tick, hx, PlayerUpdateIdle]

/-- C10: Every entry into RESPAWN (the Entry hook, hence every transition
into RESPAWN) resets the position to the screen center, restores health,
stamina and mana to 100, and installs the fixed respawn sequence. -/
theorem respawn_entry_resets (env : Env) (e : Entity) :
    (ChangeState env true STATE_RESPAWN e).position =
      ⟨env.screenW / 2, env.screenH / 2⟩ ∧
    (ChangeState env true STATE_RESPAWN e).health = 100 ∧
    (ChangeState env true STATE_RESPAWN e).stamina = 100 ∧
    (ChangeState env true STATE_RESPAWN e).mana = 100 ∧
    (ChangeState env true STATE_RESPAWN e).anim =
      ⟨spriteRow 384 8, 8, 1/10, 0, 0⟩ ∧
    (PlayerEnterRespawn env e).position = ⟨env.screenW / 2, env.screenH / 2⟩ ∧
    (PlayerEnterRespawn env e).health = 100 ∧
    (PlayerEnterRespawn env e).stamina = 100 ∧
    (PlayerEnterRespawn env e).mana = 100 := by
  unfold ChangeState
  rw [if_pos (Or.inl rfl)]
  simp [entryHook, PlayerEnterRespawn, InitGameObjectAnimation]


@[simp] lemma updateAnimation_frameCount (dt : ℚ) (a : Anim) :
    (UpdateAnimation dt a).frameCount = a.frameCount := by
  unfold UpdateAnimation; split <;> rfl

@[simp] lemma updateAnimation_frameDuration (dt : ℚ) (a : Anim) :
    (UpdateAnimation dt a).frameDuration = a.frameDuration := by
  unfold UpdateAnimation; split <;> rfl

/-- A concrete entity at the initial values of `InitPlayer` on an 800x450
screen, used by witnesses. -/
def sampleEntity : Entity :=
  { position := ⟨400, 225⟩, velocity := ⟨0, 0⟩, colliderPos := ⟨400, 225⟩,
    colliderRadius := 10, health := 100, previousState := STATE_IDLE,
    currentState := STATE_IDLE, lastDirection := STATE_IDLE, speed := 2,
    anim := ⟨spriteRow 320 8, 8, 1/5, 0, 0⟩, stamina := 100, mana := 100,
    lives := 4, spawnPoint := ⟨400, 225⟩, shieldColor := (0, 0, 0, 0),
    shieldRadius := 0, shieldActive := false, shieldExitCount := 0 }

/-- A concrete environment: 800x450 screen, one-tenth-second frame time. -/
def sampleEnv : Env := ⟨800, 450, 1/10, 0⟩

/-- C1 witness: the IDLE dispatch table, checked on the concrete initial
entity. -/
theorem idle_dispatch_table_witness :
    sampleEntity.currentState = STATE_IDLE ∧
    (Dispatch sampleEnv sampleEntity EVENT_MOVE).currentState = STATE_WALKING :=
  ⟨rfl, (idle_dispatch_table sampleEnv sampleEntity rfl).1⟩

/-- A concrete shielded entity, used by witnesses. -/
def shieldedEntity : Entity :=
  { sampleEntity with
      currentState := STATE_SHIELD
      shieldActive := true }

/-- C7 witness: the SHIELD dispatch table, checked on a concrete shielded
entity. -/
theorem shield_dispatch_exit_once_witness :
    shieldedEntity.currentState = STATE_SHIELD ∧
    (Dispatch sampleEnv shieldedEntity EVENT_MOVE_UP).currentState = STATE_IDLE :=
  ⟨rfl, (shield_dispatch_exit_once sampleEnv sampleEnv shieldedEntity rfl).1⟩

/-- C4: every ATTACKING tick deducts the fixed mana cost 1.0; if the
deducted mana is ≤ 0 it is clamped to exactly 0, the entity is forced to
IDLE on that same tick and the animation is not advanced (the IDLE entry
installs a fresh sequence with cursor 0); otherwise mana keeps the deducted
value, the state stays ATTACKING and the animation advances. -/
theorem attacking_tick_mana (env : Env) (e : Entity)
    (h : e.currentState = STATE_ATTACKING) :
    (e.mana - 1 ≤ 0 →
      (Tick env e).mana = 0 ∧
      (Tick env e).currentState = STATE_IDLE ∧
      (Tick env e).previousState = STATE_ATTACKING ∧
      (Tick env e).anim = ⟨idleFramesFor (env.rand % 7 + 1), 8, 1/5, 0, 0⟩) ∧
    (¬ e.mana - 1 ≤ 0 →
      (Tick env e).mana = e.mana - 1 ∧
      (Tick env e).currentState = STATE_ATTACKING ∧
      (Tick env e).anim = UpdateAnimation env.dt e.anim) := by
  refine ⟨fun hm => ?_, fun hm => ?_⟩
  · have ht : Tick env e = ChangeState env true STATE_IDLE { e with mana := 0 } := by
      simp [Tick, h, PlayerUpdateAttacking, hm]
    rw [ht]
    refine ⟨?_, ?_, ?_, ?_⟩
    · rw [changeState_mana _ _ _ _ (by simp)]
    · simp
    · simp [h]
    · exact changeState_idle_anim env _ (by simp [h])
  · simp [Tick, h, PlayerUpdateAttacking, hm]

/-- A concrete attacking entity with mana 0.5, used by witnesses. -/
def lowManaAttacker : Entity :=
  { sampleEntity with
      currentState := STATE_ATTACKING
      mana := 1/2 }

/-- C4 witness: the spec scenario — mana 0.5 in ATTACKING clamps to 0 and
the next state is IDLE after one tick. -/
theorem attacking_tick_mana_witness :
    lowManaAttacker.currentState = STATE_ATTACKING ∧
    lowManaAttacker.mana - 1 ≤ 0 ∧
    (Tick sampleEnv lowManaAttacker).mana = 0 ∧
    (Tick sampleEnv lowManaAttacker).currentState = STATE_IDLE := by
  have h := (attacking_tick_mana sampleEnv lowManaAttacker rfl).1
    (by norm_num [lowManaAttacker, sampleEntity])
  exact ⟨rfl, by norm_num [lowManaAttacker, sampleEntity], h.1, h.2.1⟩

/-- C3: on the DEAD tick in which the death animation reaches its final
frame, lives decreases by exactly 1; if the decremented lives is positive the
entity transitions to RESPAWN; otherwise lives resets to 4, the position
resets to the spawn point and the entity goes directly to IDLE (previousState
stays DEAD, so RESPAWN is bypassed).  On every earlier DEAD tick lives is
unchanged. -/
theorem dead_tick_lives (env : Env) (e : Entity)
    (h : e.currentState = STATE_DEAD) :
    ((UpdateAnimation env.dt e.anim).currentFrame ≥ e.anim.frameCount - 1 →
      (e.lives - 1 > 0 →
        (Tick env e).lives = e.lives - 1 ∧
        (Tick env e).currentState = STATE_RESPAWN) ∧
      (¬ e.lives - 1 > 0 →
        (Tick env e).lives = 4 ∧
        (Tick env e).position = e.spawnPoint ∧
        (Tick env e).currentState = STATE_IDLE ∧
        (Tick env e).previousState = STATE_DEAD)) ∧
    (¬ (UpdateAnimation env.dt e.anim).currentFrame ≥ e.anim.frameCount - 1 →
      (Tick env e).lives = e.lives ∧
      (Tick env e).currentState = STATE_DEAD) := by
  refine ⟨fun hc => ⟨fun hl => ?_, fun hl => ?_⟩, fun hc => ?_⟩
  · have ht : Tick env e = ChangeState env true STATE_RESPAWN
        { e with anim := UpdateAnimation env.dt e.anim,
                 lives := e.lives - 1 } := by
      simp [Tick, h, PlayerUpdateDie, hc, hl]
    rw [ht]
    simp
  · have ht : Tick env e = ChangeState env true STATE_IDLE
        { e with anim := UpdateAnimation env.dt e.anim,
                 position := e.spawnPoint, lives := 4 } := by
      simp [Tick, h, PlayerUpdateDie, hc, hl]
    rw [ht]
    refine ⟨by simp, ?_, by simp, by simp [h]⟩
    rw [changeState_position _ _ _ _ (by simp)]
  · simp [Tick, h, PlayerUpdateDie, hc]

/-- A concrete dying entity with 2 lives on the penultimate death frame,
used by witnesses. -/
def dyingEntity : Entity :=
  { sampleEntity with
      currentState := STATE_DEAD
      lives := 2
      anim := ⟨spriteRow 1280 6, 6, 1/5, 1/10, 4⟩ }

/-- C3 witness: a dead entity one frame before the end of the 6-frame death
sequence, with 2 lives, loses exactly one life and moves to RESPAWN. -/
theorem dead_tick_lives_witness :
    dyingEntity.currentState = STATE_DEAD ∧
    (UpdateAnimation sampleEnv.dt dyingEntity.anim).currentFrame ≥
      dyingEntity.anim.frameCount - 1 ∧
    (Tick sampleEnv dyingEntity).lives = 1 ∧
    (Tick sampleEnv dyingEntity).currentState = STATE_RESPAWN := by
  have h := ((dead_tick_lives sampleEnv dyingEntity rfl).1
    (by norm_num [UpdateAnimation, sampleEnv, dyingEntity, sampleEntity])).1
    (by norm_num [dyingEntity, sampleEntity])
  exact ⟨rfl,
    by norm_num [UpdateAnimation, sampleEnv, dyingEntity, sampleEntity],
    h.1, h.2⟩


@[simp] lemma changeState_idle_position (env : Env) (f : Bool) (e : Entity) :
    (ChangeState env f STATE_IDLE e).position = e.position :=
  changeState_position env f _ e (by decide)

@[simp] lemma changeState_dead_position (env : Env) (f : Bool) (e : Entity) :
    (ChangeState env f STATE_DEAD e).position = e.position :=
  changeState_position env f _ e (by decide)

@[simp] lemma changeState_idle_stamina (env : Env) (f : Bool) (e : Entity) :
    (ChangeState env f STATE_IDLE e).stamina = e.stamina :=
  changeState_stamina env f _ e (by decide)

@[simp] lemma changeState_dead_stamina (env : Env) (f : Bool) (e : Entity) :
    (ChangeState env f STATE_DEAD e).stamina = e.stamina :=
  changeState_stamina env f _ e (by decide)

@[simp] lemma changeState_idle_mana (env : Env) (f : Bool) (e : Entity) :
    (ChangeState env f STATE_IDLE e).mana = e.mana :=
  changeState_mana env f _ e (by decide)

@[simp] lemma changeState_dead_mana (env : Env) (f : Bool) (e : Entity) :
    (ChangeState env f STATE_DEAD e).mana = e.mana :=
  changeState_mana env f _ e (by decide)

@[simp] lemma changeState_idle_health (env : Env) (f : Bool) (e : Entity) :
    (ChangeState env f STATE_IDLE e).health = e.health :=
  changeState_health env f _ e (by decide)

@[simp] lemma changeState_dead_health (env : Env) (f : Bool) (e : Entity) :
    (ChangeState env f STATE_DEAD e).health = e.health :=
  changeState_health env f _ e (by decide)

/-- A state handled by `PlayerUpdateWalking` is never IDLE. -/
lemma mem_walkingStates_ne_idle {s : State} (h : s ∈ walkingStates) :
    s ≠ STATE_IDLE := by
  intro he
  subst he
  simp [walkingStates] at h

/-- The two sequential boundary checks keep the axis value inside
`[lo, hi]` whenever that interval is nonempty. -/
lemma boundaryClamp_bounds (lo hi v : ℚ) (h : lo ≤ hi) :
    lo ≤ boundaryClamp lo hi v ∧ boundaryClamp lo hi v ≤ hi := by
  unfold boundaryClamp
  by_cases h1 : v < lo
  · simp only [if_pos h1]
    by_cases h2 : lo > hi
    · rw [if_pos h2]; exact ⟨h, le_rfl⟩
    · rw [if_neg h2]; exact ⟨le_rfl, le_of_not_lt h2⟩
  · simp only [if_neg h1]
    push_neg at h1
    by_cases h2 : v > hi
    · rw [if_pos h2]; exact ⟨h, le_rfl⟩
    · rw [if_neg h2]; exact ⟨h1, le_of_not_lt h2⟩

/-- The death-check / animation-completion tail of `PlayerUpdateWalking`
leaves the position alone. -/
lemma walkTail_position (env : Env) (x : Entity) :
    (if (if x.health ≤ 0 then ChangeState env true STATE_DEAD x else x).anim.currentFrame ≥
        (if x.health ≤ 0 then ChangeState env true STATE_DEAD x else x).anim.frameCount - 1
     then ChangeState env true STATE_IDLE
        (if x.health ≤ 0 then ChangeState env true STATE_DEAD x else x)
     else (if x.health ≤ 0 then ChangeState env true STATE_DEAD x else x)).position
      = x.position := by
  split <;> split <;> simp

/-- The death-check / animation-completion tail of `PlayerUpdateWalking`
leaves the collider center alone. -/
lemma walkTail_colliderPos (env : Env) (x : Entity) :
    (if (if x.health ≤ 0 then ChangeState env true STATE_DEAD x else x).anim.currentFrame ≥
        (if x.health ≤ 0 then ChangeState env true STATE_DEAD x else x).anim.frameCount - 1
     then ChangeState env true STATE_IDLE
        (if x.health ≤ 0 then ChangeState env true STATE_DEAD x else x)
     else (if x.health ≤ 0 then ChangeState env true STATE_DEAD x else x)).colliderPos
      = x.colliderPos := by
  split <;> split <;> simp

/-- The death-check / animation-completion tail of `PlayerUpdateWalking`
leaves the last cardinal direction alone. -/
lemma walkTail_lastDirection (env : Env) (x : Entity) :
    (if (if x.health ≤ 0 then ChangeState env true STATE_DEAD x else x).anim.currentFrame ≥
        (if x.health ≤ 0 then ChangeState env true STATE_DEAD x else x).anim.frameCount - 1
     then ChangeState env true STATE_IDLE
        (if x.health ≤ 0 then ChangeState env true STATE_DEAD x else x)
     else (if x.health ≤ 0 then ChangeState env true STATE_DEAD x else x)).lastDirection
      = x.lastDirection := by
  split <;> split <;> simp

/-- C5 (amended): a WALKING/MOVING_* tick whose stamina deduction reaches 0
clamps stamina to 0, forces IDLE, and leaves position, collider and
lastDirection unchanged; the IDLE entry hook however replaces the animation
with a fresh idle sequence, resetting the cursor to frame 0 (so the cursor is
"unchanged" only in the sense that `UpdateAnimation` is skipped). -/
theorem walking_depletion_skips_tick (env : Env) (e : Entity)
    (h : e.currentState ∈ walkingStates) (h2 : e.stamina - 1/20 ≤ 0) :
    (Tick env e).stamina = 0 ∧
    (Tick env e).currentState = STATE_IDLE ∧
    (Tick env e).previousState = e.currentState ∧
    (Tick env e).position = e.position ∧
    (Tick env e).colliderPos = e.colliderPos ∧
    (Tick env e).lastDirection = e.lastDirection ∧
    (Tick env e).anim = ⟨idleFramesFor (env.rand % 7 + 1), 8, 1/5, 0, 0⟩ := by
  rw [tick_eq_walking env e h]
  have ht : PlayerUpdateWalking env e =
      ChangeState env true STATE_IDLE { e with stamina := 0 } := by
    unfold PlayerUpdateWalking
    dsimp only
    rw [if_pos h2]
  rw [ht]
  refine ⟨by simp, by simp, by simp, by simp, by simp, by simp, ?_⟩
  exact changeState_idle_anim env _ (by simpa using mem_walkingStates_ne_idle h)

/-- C5 (counterexample): a concrete MOVING_UP entity whose stamina deduction
reaches 0, with the animation cursor at frame 3: the forced IDLE transition
re-rolls the animation, so the cursor is NOT unchanged by the tick — it
resets to frame 0. -/
def tiredWalker : Entity :=
  { sampleEntity with
      currentState := STATE_MOVING_UP
      stamina := 1/20
      anim := ⟨spriteRow 512 9, 9, 1/10, 0, 3⟩ }

/-- C5 counterexample theorem: at `tiredWalker` the depleted tick transitions
to IDLE as claimed, but the animation cursor changes from 3 to 0, refuting
"the animation cursor is unchanged by that tick". -/
theorem walking_depletion_cursor_changes :
    tiredWalker.stamina - 1/20 ≤ 0 ∧
    (Tick sampleEnv tiredWalker).currentState = STATE_IDLE ∧
    tiredWalker.anim.currentFrame = 3 ∧
    (Tick sampleEnv tiredWalker).anim.currentFrame = 0 ∧
    (Tick sampleEnv tiredWalker).anim.currentFrame ≠ tiredWalker.anim.currentFrame := by
  have ht : Tick sampleEnv tiredWalker =
      ChangeState sampleEnv true STATE_IDLE { tiredWalker with stamina := 0 } := by
    norm_num [Tick, tiredWalker, sampleEntity, PlayerUpdateWalking]
  have ha := changeState_idle_anim sampleEnv
    ({ tiredWalker with stamina := 0 } : Entity)
    (by simp [tiredWalker, sampleEntity])
  refine ⟨by norm_num [tiredWalker, sampleEntity], by rw [ht]; simp, rfl, ?_, ?_⟩
  · rw [ht, ha]
  · rw [ht, ha]
    simp [tiredWalker, sampleEntity]

/-- C5 witness: the amended statement checked at `tiredWalker`. -/
theorem walking_depletion_skips_tick_witness :
    tiredWalker.currentState ∈ walkingStates ∧
    tiredWalker.stamina - 1/20 ≤ 0 ∧
    (Tick sampleEnv tiredWalker).stamina = 0 ∧
    (Tick sampleEnv tiredWalker).position = tiredWalker.position := by
  have h := walking_depletion_skips_tick sampleEnv tiredWalker
    (by simp [tiredWalker, sampleEntity, walkingStates])
    (by norm_num [tiredWalker, sampleEntity])
  exact ⟨by simp [tiredWalker, sampleEntity, walkingStates],
    by norm_num [tiredWalker, sampleEntity], h.1, h.2.2.2.1⟩


/-- The movement stage of `PlayerUpdateWalking` on the non-depleted path:
stamina already deducted, direction applied, position clamped, collider
synced, animation advanced (the death / completion checks follow it). -/
def walkMoved (env : Env) (e : Entity) : Entity :=
  let e1 := { e with stamina := e.stamina - 1/20 }
  let ds := walkMoveDirection e1.currentState e1.speed e1.lastDirection
  let e2 := PlayerMove ds.1 { e1 with lastDirection := ds.2 }
  let px := boundaryClamp 32 (env.screenW - 32) e2.position.x
  let py := boundaryClamp 32 (env.screenH - 32) e2.position.y
  { e2 with position := ⟨px, py⟩, colliderPos := ⟨px, py⟩,
            anim := UpdateAnimation env.dt e2.anim }

/-- On a tick whose stamina deduction stays positive, `PlayerUpdateWalking`
is the death / completion tail applied to the moved entity. -/
lemma playerUpdateWalking_of_stamina (env : Env) (e : Entity)
    (h2 : ¬ e.stamina - 1/20 ≤ 0) :
    PlayerUpdateWalking env e =
      (if (if (walkMoved env e).health ≤ 0
            then ChangeState env true STATE_DEAD (walkMoved env e)
            else walkMoved env e).anim.currentFrame ≥
          (if (walkMoved env e).health ≤ 0
            then ChangeState env true STATE_DEAD (walkMoved env e)
            else walkMoved env e).anim.frameCount - 1
        then ChangeState env true STATE_IDLE
          (if (walkMoved env e).health ≤ 0
            then ChangeState env true STATE_DEAD (walkMoved env e)
            else walkMoved env e)
        else (if (walkMoved env e).health ≤ 0
            then ChangeState env true STATE_DEAD (walkMoved env e)
            else walkMoved env e)) := by
  unfold PlayerUpdateWalking
  dsimp only
  rw [if_neg h2]
  rfl

@[simp] lemma walkMoved_health (env : Env) (e : Entity) :
    (walkMoved env e).health = e.health := rfl

@[simp] lemma walkMoved_lastDirection (env : Env) (e : Entity) :
    (walkMoved env e).lastDirection =
      (walkMoveDirection e.currentState e.speed e.lastDirection).2 := rfl

/-- The clamped movement stage lands inside the screen bounds and syncs the
collider with the position. -/
lemma walkMoved_bounds (env : Env) (e : Entity)
    (hW2 : (32 : ℚ) ≤ env.screenW - 32) (hH2 : (32 : ℚ) ≤ env.screenH - 32) :
    32 ≤ (walkMoved env e).position.x ∧
    (walkMoved env e).position.x ≤ env.screenW - 32 ∧
    32 ≤ (walkMoved env e).position.y ∧
    (walkMoved env e).position.y ≤ env.screenH - 32 ∧
    (walkMoved env e).colliderPos = (walkMoved env e).position := by
  unfold walkMoved
  dsimp only
  exact ⟨(boundaryClamp_bounds _ _ _ hW2).1, (boundaryClamp_bounds _ _ _ hW2).2,
    (boundaryClamp_bounds _ _ _ hH2).1, (boundaryClamp_bounds _ _ _ hH2).2, rfl⟩

/-- A concrete entity moving up at full stamina, used by witnesses. -/
def movingEntity : Entity :=
  { sampleEntity with currentState := STATE_MOVING_UP }

/-- C6: after a WALKING/MOVING_* tick that performs movement (stamina stays
positive), the position lies inside `[32, screenW - 32] x [32, screenH - 32]`
and the collider center equals the position, for any starting position (given
a screen at least 64 wide and tall so the clamp interval is nonempty). -/
theorem walking_tick_bounds (env : Env) (e : Entity)
    (h : e.currentState ∈ walkingStates)
    (h2 : ¬ e.stamina - 1/20 ≤ 0)
    (hW : (64 : ℚ) ≤ env.screenW) (hH : (64 : ℚ) ≤ env.screenH) :
    32 ≤ (Tick env e).position.x ∧
    (Tick env e).position.x ≤ env.screenW - 32 ∧
    32 ≤ (Tick env e).position.y ∧
    (Tick env e).position.y ≤ env.screenH - 32 ∧
    (Tick env e).colliderPos = (Tick env e).position := by
  rw [tick_eq_walking env e h]
  have hW2 : (32 : ℚ) ≤ env.screenW - 32 := by linarith
  have hH2 : (32 : ℚ) ≤ env.screenH - 32 := by linarith
  rw [playerUpdateWalking_of_stamina env e h2, walkTail_position,
    walkTail_colliderPos]
  exact walkMoved_bounds env e hW2 hH2

/-- C6 witness: the boundary property checked on the concrete moving
entity. -/
theorem walking_tick_bounds_witness :
    movingEntity.currentState ∈ walkingStates ∧
    ¬ movingEntity.stamina - 1/20 ≤ 0 ∧
    32 ≤ (Tick sampleEnv movingEntity).position.x ∧
    (Tick sampleEnv movingEntity).colliderPos =
      (Tick sampleEnv movingEntity).position := by
  have h := walking_tick_bounds sampleEnv movingEntity
    (by simp [movingEntity, sampleEntity, walkingStates])
    (by norm_num [movingEntity, sampleEntity])
    (by norm_num [sampleEnv]) (by norm_num [sampleEnv])
  exact ⟨by simp [movingEntity, sampleEntity, walkingStates],
    by norm_num [movingEntity, sampleEntity], h.1, h.2.2.2.2⟩

/-- C9: a WALKING/MOVING_* tick in which stamina stays positive and health is
≤ 0 ends in DEAD: the forced transition to DEAD installs the fresh
death sequence (cursor 0 of 6 frames), so the same tick's
animation-completion check cannot move the entity back out of DEAD. -/
theorem walking_tick_death (env : Env) (e : Entity)
    (h : e.currentState ∈ walkingStates)
    (h2 : ¬ e.stamina - 1/20 ≤ 0) (h3 : e.health ≤ 0) :
    (Tick env e).currentState = STATE_DEAD := by
  rw [tick_eq_walking env e h]
  rw [playerUpdateWalking_of_stamina env e h2]
  rw [if_pos (show (walkMoved env e).health ≤ 0 from walkMoved_health env e ▸ h3)]
  simp [changeState_dead_anim]

/-- A concrete moving entity with depleted health, used by witnesses. -/
def woundedWalker : Entity :=
  { sampleEntity with
      currentState := STATE_MOVING_DOWN
      health := 0
      anim := ⟨spriteRow 640 9, 9, 1/10, 0, 8⟩ }

/-- C9 witness: the moving entity with zero health (and its movement
animation already on the final frame) ends the tick DEAD. -/
theorem walking_tick_death_witness :
    woundedWalker.currentState ∈ walkingStates ∧
    ¬ woundedWalker.stamina - 1/20 ≤ 0 ∧
    woundedWalker.health ≤ 0 ∧
    (Tick sampleEnv woundedWalker).currentState = STATE_DEAD :=
  ⟨by simp [woundedWalker, sampleEntity, walkingStates],
   by norm_num [woundedWalker, sampleEntity],
   by norm_num [woundedWalker, sampleEntity],
   walking_tick_death sampleEnv woundedWalker
     (by simp [woundedWalker, sampleEntity, walkingStates])
     (by norm_num [woundedWalker, sampleEntity])
     (by norm_num [woundedWalker, sampleEntity])⟩

/-- C8: on a movement tick with positive stamina, each cardinal MOVING_*
state moves at full speed along exactly one axis (the other component 0) and
sets `lastDirection` to that cardinal state, while each diagonal MOVING_*
state applies exactly half the speed on each axis (unnormalized) and leaves
`lastDirection` unmodified. -/
theorem moving_direction_spec (env : Env) (e : Entity) (speed : ℚ) (l : State)
    (h2 : ¬ e.stamina - 1/20 ≤ 0) :
    walkMoveDirection STATE_MOVING_UP speed l = (⟨0, -speed⟩, STATE_MOVING_UP) ∧
    walkMoveDirection STATE_MOVING_DOWN speed l = (⟨0, speed⟩, STATE_MOVING_DOWN) ∧
    walkMoveDirection STATE_MOVING_LEFT speed l = (⟨-speed, 0⟩, STATE_MOVING_LEFT) ∧
    walkMoveDirection STATE_MOVING_RIGHT speed l = (⟨speed, 0⟩, STATE_MOVING_RIGHT) ∧
    walkMoveDirection STATE_MOVING_UP_RIGHT speed l = (⟨speed / 2, -(speed / 2)⟩, l) ∧
    walkMoveDirection STATE_MOVING_UP_LEFT speed l = (⟨-(speed / 2), -(speed / 2)⟩, l) ∧
    walkMoveDirection STATE_MOVING_DOWN_RIGHT speed l = (⟨speed / 2, speed / 2⟩, l) ∧
    walkMoveDirection STATE_MOVING_DOWN_LEFT speed l = (⟨-(speed / 2), speed / 2⟩, l) ∧
    (e.currentState = STATE_MOVING_UP ∨ e.currentState = STATE_MOVING_DOWN ∨
     e.currentState = STATE_MOVING_LEFT ∨ e.currentState = STATE_MOVING_RIGHT →
      (Tick env e).lastDirection = e.currentState) ∧
    (e.currentState = STATE_MOVING_UP_LEFT ∨ e.currentState = STATE_MOVING_UP_RIGHT ∨
     e.currentState = STATE_MOVING_DOWN_LEFT ∨ e.currentState = STATE_MOVING_DOWN_RIGHT →
      (Tick env e).lastDirection = e.lastDirection) := by
  refine ⟨rfl, rfl, rfl, rfl, rfl, rfl, rfl, rfl, fun hc => ?_, fun hc => ?_⟩
  · rcases hc with hc | hc | hc | hc
    all_goals
      rw [tick_eq_walking env e (by simp [walkingStates, hc])]
      rw [playerUpdateWalking_of_stamina env e h2, walkTail_lastDirection]
      rw [walkMoved_lastDirection]
      simp [hc, walkMoveDirection]
  · rcases hc with hc | hc | hc | hc
    all_goals
      rw [tick_eq_walking env e (by simp [walkingStates, hc])]
      rw [playerUpdateWalking_of_stamina env e h2, walkTail_lastDirection]
      rw [walkMoved_lastDirection]
      simp [hc, walkMoveDirection]

/-- C8 witness: a tick of the concrete MOVING_UP entity sets
`lastDirection` to MOVING_UP. -/
theorem moving_direction_spec_witness :
    ¬ movingEntity.stamina - 1/20 ≤ 0 ∧
    movingEntity.currentState = STATE_MOVING_UP ∧
    (Tick sampleEnv movingEntity).lastDirection = STATE_MOVING_UP := by
  have h := (moving_direction_spec sampleEnv movingEntity 2 STATE_IDLE
    (by norm_num [movingEntity, sampleEntity])).2.2.2.2.2.2.2.2.1
    (Or.inl rfl)
  exact ⟨by norm_num [movingEntity, sampleEntity], rfl, by rw [h]; rfl⟩

/-- A concrete shielded entity with stamina already at 0, used as the C2
failing input (it is reachable: walking drains stamina to exactly 0 forcing
IDLE, and IDLE accepts DEFEND into SHIELD without any stamina gate). -/
def drainedShielder : Entity :=
  { sampleEntity with
      currentState := STATE_SHIELD
      shieldActive := true
      stamina := 0 }

/-- C2 (failing-input evaluation): a SHIELD update tick at stamina 0 deducts
0.05 and, although it forces the IDLE transition, never clamps the pool —
the tick ends with stamina = -1/20 < 0, violating the claimed [0, max]
invariant.  (The WALKING and ATTACKING updates do clamp; the clamp line is
missing only in `PlayerUpdateShield`.) -/
theorem shield_tick_negative_stamina :
    drainedShielder.stamina = 0 ∧
    (Tick sampleEnv drainedShielder).stamina = -(1/20) ∧
    (Tick sampleEnv drainedShielder).stamina < 0 ∧
    (Tick sampleEnv drainedShielder).currentState = STATE_IDLE := by
  have ht : (Tick sampleEnv drainedShielder).stamina = -(1/20) := by
    norm_num [Tick, drainedShielder, sampleEntity, PlayerUpdateShield]
  have hs : (Tick sampleEnv drainedShielder).currentState = STATE_IDLE := by
    norm_num [Tick, drainedShielder, sampleEntity, PlayerUpdateShield]
  exact ⟨rfl, ht, by rw [ht]; norm_num, hs⟩

end FSM
